import Mathlib

/-!
Verification development for the tusk OAuth authorization-code coordinator.

The Go source (package oauth, and the auth command in package cmd) is
shallowly embedded: pure computations become Lean functions; the one-slot
buffered channels become an `Option` value with an explicit send operation
that reports blocking; goroutine interleavings are resolved by passing the
resolved event (which channel was ready, or the timer) explicitly to the
embedded `WaitForCode`.
-/

namespace Tusk

/-! ## Port allocation (oauth.getRandomPort) -/

/-- Go constant minPort = 49152. -/
def minPort : Nat := 49152

/-- Go constant maxPort = 65535. -/
def maxPort : Nat := 65535

/-- Size of the ephemeral range, as computed by getRandomPort: maxPort - minPort + 1. -/
def portRange : Nat := maxPort - minPort + 1

/-- Embedding of getRandomPort. The call rand.Int(rand.Reader, portRange) is
modelled by its outcome: either an error from the random source, or a value
n with 0 ≤ n < portRange (the contract of rand.Int). On success the
function returns minPort + n; rand failure is propagated unchanged. -/
def getRandomPort (randInt : Except String Nat) : Except String Nat :=
  match randInt with
  | Except.error e => Except.error e
  | Except.ok n => Except.ok (minPort + n)

/-! ## Callback server state (oauth.CallbackServer) -/

/-- A Go buffered channel of capacity 1, holding at most one value. -/
def Chan (α : Type) : Type := Option α

/-- Result of a channel send: either the new channel contents, or the
sending goroutine blocks because the buffer is full. -/
inductive SendResult (α : Type) where
  | sent (c : Option α)
  | blocked
  deriving Repr, DecidableEq

/-- Blocking send `ch <- x` on a capacity-1 buffered channel: succeeds
immediately when the buffer is empty, otherwise the sender blocks. -/
def chanSend {α : Type} (c : Option α) (x : α) : SendResult α :=
  match c with
  | none => SendResult.sent (some x)
  | some _ => SendResult.blocked

/-- Embedding of the CallbackServer struct: port, the http.Server address,
the two capacity-1 channels, and the sync.Once guard. `shutdownCount`
counts how many times the inner server.Shutdown body actually ran. -/
structure CallbackServer where
  port : Nat
  serverAddr : String
  codeChan : Option String
  errChan : Option String
  onceDone : Bool
  shutdownCount : Nat
  deriving Repr, DecidableEq

/-- Embedding of NewCallbackServer: allocates a port via getRandomPort
(rand.Int outcome passed in), wraps a rand failure, and otherwise builds
the server with Addr = fmt.Sprintf(":%d", port) and both channels empty. -/
def NewCallbackServer (randInt : Except String Nat) : Except String CallbackServer :=
  match getRandomPort randInt with
  | Except.error e => Except.error ("failed to get random port: " ++ e)
  | Except.ok port =>
      Except.ok
        { port := port
          serverAddr := ":" ++ toString port
          codeChan := none
          errChan := none
          onceDone := false
          shutdownCount := 0 }

/-- The single pattern registered on the http.ServeMux by NewCallbackServer. -/
def muxPatterns : List String := ["/callback"]

/-- Embedding of Start's bind: net.Listen("tcp", cs.server.Addr) uses the
address stored in the server struct. -/
def startBindAddr (cs : CallbackServer) : String := cs.serverAddr

/-- Embedding of RedirectURI: fmt.Sprintf("http://localhost:%d/callback", cs.port). -/
def RedirectURI (cs : CallbackServer) : String :=
  "http://localhost:" ++ toString cs.port ++ "/callback"

/-! ## Request handling (oauth.CallbackServer.handleCallback) -/

/-- Go url.Values.Get: first value for the key, or "" when absent. -/
def queryGet (q : List (String × String)) (key : String) : String :=
  match q.find? (fun p => p.1 == key) with
  | some p => p.2
  | none => ""

/-- An HTTP response as produced by the handler: status code, Content-Type
header, body. -/
structure HTTPResponse where
  status : Nat
  contentType : String
  body : String
  deriving Repr, DecidableEq

/-- The HTML confirmation page written by handleCallback on success
(fmt.Fprintf literal; braces escaped). -/
def successPage : String :=
  "\n<!DOCTYPE html>\n<html>\n<head>\n    <meta charset=\"UTF-8\">\n    <title>Tusk Authorization</title>\n    <style>\n        body \x7b\n            font-family: -apple-system, BlinkMacSystemFont, \"Segoe UI\", Roboto, sans-serif;\n            display: flex;\n            justify-content: center;\n            align-items: center;\n            height: 100vh;\n            margin: 0;\n            background: #f5f5f5;\n        \x7d\n        .container \x7b\n            text-align: center;\n            background: white;\n            padding: 2rem;\n            border-radius: 8px;\n            box-shadow: 0 2px 10px rgba(0,0,0,0.1);\n        \x7d\n        h1 \x7b color: #2ecc71; \x7d\n    </style>\n</head>\n<body>\n    <div class=\"container\">\n        <h1>&#128640; Authorization Successful!</h1>\n        <p>You can close this window and return to your terminal.</p>\n    </div>\n</body>\n</html>\n"

/-- The two channels a handler send can target. -/
inductive ChanName where
  | codeChan
  | errChan
  deriving Repr, DecidableEq

/-- Outcome of running handleCallback on one request: either the handler
returned (with the updated server state and the response it wrote), or its
channel send blocked because the buffer was already full. -/
inductive HandlerOutcome where
  | responded (cs : CallbackServer) (resp : HTTPResponse)
  | blockedOnSend (ch : ChanName)
  deriving Repr, DecidableEq

/-- Embedding of handleCallback. Reads the `code` query parameter; when it
is empty (absent or empty-valued) it sends a missing-code error on errChan
and answers 400 via http.Error (text/plain body, trailing newline);
otherwise it sends the code on codeChan and answers 200 with the HTML
confirmation page. Both sends are the blocking `ch <- v` of the source. -/
def handleCallback (cs : CallbackServer) (query : List (String × String)) : HandlerOutcome :=
  let code := queryGet query "code"
  if code = "" then
    match chanSend cs.errChan "no authorization code received" with
    | SendResult.sent c =>
        HandlerOutcome.responded { cs with errChan := c }
          { status := 400
            contentType := "text/plain; charset=utf-8"
            body := "Authorization failed: no code received\n" }
    | SendResult.blocked => HandlerOutcome.blockedOnSend ChanName.errChan
  else
    match chanSend cs.codeChan code with
    | SendResult.sent c =>
        HandlerOutcome.responded { cs with codeChan := c }
          { status := 200
            contentType := "text/html; charset=utf-8"
            body := successPage }
    | SendResult.blocked => HandlerOutcome.blockedOnSend ChanName.codeChan

/-! ## Serve goroutine (inside oauth.CallbackServer.Start) -/

/-- The sentinel error http.ErrServerClosed compared against by Start. -/
def ErrServerClosed : String := "http: Server closed"

/-- Outcome of the background goroutine spawned by Start after
cs.server.Serve returns: it either finishes (possibly having delivered the
serve error into errChan) or blocks on the send. -/
inductive ServeOutcome where
  | done (cs : CallbackServer)
  | blockedOnSend
  deriving Repr, DecidableEq

/-- Embedding of the goroutine body in Start: if Serve returned anything
other than http.ErrServerClosed, deliver that error into errChan with a
blocking send; otherwise do nothing. -/
def serveGoroutine (cs : CallbackServer) (serveResult : String) : ServeOutcome :=
  if serveResult = ErrServerClosed then ServeOutcome.done cs
  else
    match chanSend cs.errChan serveResult with
    | SendResult.sent c => ServeOutcome.done { cs with errChan := c }
    | SendResult.blocked => ServeOutcome.blockedOnSend

/-! ## Shutdown and WaitForCode -/

/-- Embedding of shutdown: the sync.Once guard runs the server.Shutdown
body only the first time; later calls return immediately with no effect,
no error and no blocking. -/
def shutdown (cs : CallbackServer) : CallbackServer :=
  if cs.onceDone then cs
  else { cs with onceDone := true, shutdownCount := cs.shutdownCount + 1 }

/-- The event that resolves the three-way select inside WaitForCode. -/
inductive WaitEvent where
  | codeReady (c : String)
  | errReady (e : String)
  | timeout
  deriving Repr, DecidableEq

/-- An event is resolvable in a given state: a channel case needs that
channel to hold the value, and the timer fires only when neither channel
is ready for the whole timeout. -/
def eventValid (cs : CallbackServer) (ev : WaitEvent) : Bool :=
  match ev with
  | WaitEvent.codeReady c => cs.codeChan == some c
  | WaitEvent.errReady e => cs.errChan == some e
  | WaitEvent.timeout => cs.codeChan == none && cs.errChan == none

/-- Embedding of WaitForCode: the select resolves to exactly one event;
the corresponding case receives from its channel (emptying it), calls
shutdown, and returns (code, nil), ("", err) or ("", timeout error). The
returned triple is the final server state and the Go pair (string, error). -/
def WaitForCode (cs : CallbackServer) (ev : WaitEvent) : CallbackServer × String × Option String :=
  match ev with
  | WaitEvent.codeReady c => (shutdown { cs with codeChan := none }, c, none)
  | WaitEvent.errReady e => (shutdown { cs with errChan := none }, "", some e)
  | WaitEvent.timeout => (shutdown cs, "", some "timeout waiting for authorization")

/-! ## The auth command (cmd.runAuth) -/

/-- Go strings.ToLower: per-character lowercasing (character list view). -/
def goToLower (s : String) : String := ⟨s.data.map Char.toLower⟩

/-- Go strings.TrimSpace: drop leading and trailing whitespace
(character list view). -/
def goTrim (s : String) : String :=
  ⟨((s.data.dropWhile Char.isWhitespace).reverse.dropWhile Char.isWhitespace).reverse⟩

/-- Go strings.HasPrefix s pre (character list view). -/
def goHasPref (s pre : String) : Bool := pre.data.isPrefixOf s.data

/-- Embedding of the domain-normalisation block of runAuth: trim the read
line; empty is an error; a domain with neither "http://" nor "https://"
prefix gets "https://" prepended, otherwise it is kept. -/
def normalizeDomain (raw : String) : Except String String :=
  let domain := goTrim raw
  if domain = "" then Except.error "domain cannot be empty"
  else if ¬ (goHasPref domain "http://" = true) ∧ ¬ (goHasPref domain "https://" = true) then
    Except.ok ("https://" ++ domain)
  else
    Except.ok domain

/-- Outcomes of the external collaborators runAuth invokes, in the order
it invokes them. Each field is the result the corresponding call would
return; fallible steps are Except values or Option errors. -/
structure AuthInputs where
  existingToken : String
  promptResponse : String
  rawDomain : String
  randInt : Except String Nat
  registerApp : Except String (String × String)
  setDomainErr : Option String
  setClientIdErr : Option String
  setClientSecretErr : Option String
  startErr : Option String
  openBrowserErr : Option String
  waitForCodeResult : Except String String
  getAccessToken : Except String String
  setTokenErr : Option String

/-- Observable outcome of runAuth: the RunE error (none on success), the
successful store.Set calls in order, the output.Error warning emitted on
a browser-launch failure, and whether WaitForCode was reached. -/
structure AuthResult where
  err : Option String
  writes : List (String × String)
  browserWarning : Option String
  reachedWait : Bool
  deriving Repr, DecidableEq

/-- Replay a list of store.Set writes onto a key-value view of the store. -/
def applyWrites (st : String → String) : List (String × String) → (String → String)
  | [] => st
  | (k, v) :: rest => applyWrites (fun key => if key = k then v else st key) rest

/-- Embedding of runAuth. Mirrors the source step for step: the
re-authentication prompt gate (TrimSpace(ToLower(response)), cancel unless
"y"/"yes"), domain normalisation, NewCallbackServer, RegisterApp, the
three credential writes, Start, best-effort OpenBrowser (failure only
logged), WaitForCode, token exchange, and the access-token write. Every
error return carries the fmt.Errorf prefix of the source. -/
def runAuth (inp : AuthInputs) : AuthResult :=
  if inp.existingToken ≠ "" ∧
      goTrim (goToLower inp.promptResponse) ≠ "y" ∧
      goTrim (goToLower inp.promptResponse) ≠ "yes" then
    { err := none, writes := [], browserWarning := none, reachedWait := false }
  else
    match normalizeDomain inp.rawDomain with
    | Except.error e =>
        { err := some e, writes := [], browserWarning := none, reachedWait := false }
    | Except.ok domain =>
      match NewCallbackServer inp.randInt with
      | Except.error e =>
          { err := some ("failed to create callback server: " ++ e), writes := [],
            browserWarning := none, reachedWait := false }
      | Except.ok _cs =>
        match inp.registerApp with
        | Except.error e =>
            { err := some ("failed to register app: " ++ e), writes := [],
              browserWarning := none, reachedWait := false }
        | Except.ok app =>
          match inp.setDomainErr with
          | some e =>
              { err := some ("failed to save domain: " ++ e), writes := [],
                browserWarning := none, reachedWait := false }
          | none =>
            match inp.setClientIdErr with
            | some e =>
                { err := some ("failed to save client_id: " ++ e),
                  writes := [("domain", domain)],
                  browserWarning := none, reachedWait := false }
            | none =>
              match inp.setClientSecretErr with
              | some e =>
                  { err := some ("failed to save client_secret: " ++ e),
                    writes := [("domain", domain), ("client_id", app.1)],
                    browserWarning := none, reachedWait := false }
              | none =>
                let ws := [("domain", domain), ("client_id", app.1), ("client_secret", app.2)]
                match inp.startErr with
                | some e =>
                    { err := some ("failed to start callback server: " ++ e), writes := ws,
                      browserWarning := none, reachedWait := false }
                | none =>
                  let warning := inp.openBrowserErr
                  match inp.waitForCodeResult with
                  | Except.error e =>
                      { err := some ("failed to get authorization code: " ++ e), writes := ws,
                        browserWarning := warning, reachedWait := true }
                  | Except.ok _code =>
                    match inp.getAccessToken with
                    | Except.error e =>
                        { err := some ("failed to get access token: " ++ e), writes := ws,
                          browserWarning := warning, reachedWait := true }
                    | Except.ok token =>
                      match inp.setTokenErr with
                      | some e =>
                          { err := some ("failed to save access token: " ++ e), writes := ws,
                            browserWarning := warning, reachedWait := true }
                      | none =>
                          { err := none, writes := ws ++ [("access_token", token)],
                            browserWarning := warning, reachedWait := true }

/-- Embedding of oauth.OpenBrowser: the platform switch chooses a launcher
command; an unknown platform is the "unsupported platform" error, and on
a known platform the result is whatever cmd.Start returns. -/
def OpenBrowser (goos : String) (cmdStartErr : Option String) : Option String :=
  if goos = "darwin" ∨ goos = "linux" ∨ goos = "windows" then cmdStartErr
  else some "unsupported platform"

/-! ## Theorems for the claims -/

/-- After any shutdown call the guard is set. -/
theorem shutdown_onceDone (cs : CallbackServer) : (shutdown cs).onceDone = true := by
  unfold shutdown
  by_cases h : cs.onceDone <;> simp [h]

/-- A shutdown call on a not-yet-shut-down server performs the stop once. -/
theorem shutdown_count_fresh (cs : CallbackServer) (h : cs.onceDone = false) :
    (shutdown cs).shutdownCount = cs.shutdownCount + 1 := by
  unfold shutdown
  simp [h]

/-- Claim C1: for every started callback server, WaitForCode resolved by
exactly one of the three select events delivers exactly one terminal
outcome: a delivered code returns (code, nil); a delivered error returns
("", err); the elapsed timer returns an error equal to
"timeout waiting for authorization"; and on every path the shutdown guard
has run before returning (the listener is shut down, performing the actual
stop when it had not already happened). -/
theorem waitForCode_spec (cs : CallbackServer) (ev : WaitEvent)
    (_hvalid : eventValid cs ev = true) :
    (WaitForCode cs ev).1.onceDone = true ∧
    (cs.onceDone = false →
      (WaitForCode cs ev).1.shutdownCount = cs.shutdownCount + 1) ∧
    (∀ c, ev = WaitEvent.codeReady c → (WaitForCode cs ev).2 = (c, none)) ∧
    (∀ e, ev = WaitEvent.errReady e → (WaitForCode cs ev).2 = ("", some e)) ∧
    (ev = WaitEvent.timeout →
      (WaitForCode cs ev).2 = ("", some "timeout waiting for authorization")) := by
  cases ev with
  | codeReady c =>
      exact ⟨shutdown_onceDone _, fun h => shutdown_count_fresh _ h,
        fun c2 hc => by simp [WaitForCode] at hc ⊢; exact hc,
        fun e he => by simp [WaitForCode] at he,
        fun ht => by simp [WaitForCode] at ht⟩
  | errReady e =>
      exact ⟨shutdown_onceDone _, fun h => shutdown_count_fresh _ h,
        fun c2 hc => by simp [WaitForCode] at hc,
        fun e2 he => by simp [WaitForCode] at he ⊢; exact he,
        fun ht => by simp [WaitForCode] at ht⟩
  | timeout =>
      exact ⟨shutdown_onceDone _, fun h => shutdown_count_fresh _ h,
        fun c2 hc => by simp [WaitForCode] at hc,
        fun e2 he => by simp [WaitForCode] at he,
        fun ht => by simp [WaitForCode]⟩

/-- Witness for C1: a concrete server whose codeChan holds "abc" resolves
the code event and returns ("abc", nil). -/
theorem waitForCode_spec_witness :
    eventValid
      { port := 50000, serverAddr := ":50000", codeChan := some "abc", errChan := none,
        onceDone := false, shutdownCount := 0 } (WaitEvent.codeReady "abc") = true ∧
    (WaitForCode
      { port := 50000, serverAddr := ":50000", codeChan := some "abc", errChan := none,
        onceDone := false, shutdownCount := 0 } (WaitEvent.codeReady "abc")).2 =
      ("abc", none) := by
  refine ⟨by decide, ?_⟩
  exact (waitForCode_spec _ _ (by decide)).2.2.1 "abc" rfl

/-- Claim C2: shutdown is idempotent: iterating it any positive number of
times equals calling it once, a single call increments the actual-stop
count by at most one (and exactly once it has run, the guard is set so no
later call performs the stop again), and every call is a total function of
the state, so no call errors, panics or blocks. -/
theorem shutdown_idempotent (cs : CallbackServer) (n : Nat) :
    shutdown (shutdown cs) = shutdown cs ∧
    shutdown^[n + 1] cs = shutdown cs ∧
    (shutdown cs).shutdownCount ≤ cs.shutdownCount + 1 ∧
    (shutdown^[n + 1] cs).shutdownCount = (shutdown cs).shutdownCount ∧
    (shutdown cs).onceDone = true := by
  have honce : (shutdown cs).onceDone = true := by
    unfold shutdown
    by_cases h : cs.onceDone <;> simp [h]
  have hidem : shutdown (shutdown cs) = shutdown cs := by
    conv_lhs => rw [shutdown]
    rw [honce]
    simp
  have hiter : ∀ m : Nat, shutdown^[m + 1] cs = shutdown cs := by
    intro m
    induction m with
    | zero => simp
    | succ k ih =>
        rw [Function.iterate_succ_apply', ih, hidem]
  refine ⟨hidem, hiter n, ?_, by rw [hiter n], honce⟩
  unfold shutdown
  by_cases h : cs.onceDone <;> simp [h]

/-- Claim C3 (failing input): the handler's delivery is the blocking send
of the source, not attempt-and-drop: with the one-slot code channel
already holding a first code, a second request carrying code "second"
leaves the handler blocked on the send instead of dropping the value and
responding. -/
theorem handleCallback_blocks_on_full_slot :
    handleCallback
      { port := 50000, serverAddr := ":50000", codeChan := some "first", errChan := none,
        onceDone := false, shutdownCount := 0 }
      [("code", "second")] = HandlerOutcome.blockedOnSend ChanName.codeChan ∧
    handleCallback
      { port := 50000, serverAddr := ":50000", codeChan := none, errChan := some "e1",
        onceDone := false, shutdownCount := 0 }
      [] = HandlerOutcome.blockedOnSend ChanName.errChan := by
  constructor <;> rfl

/-- Claim C4 (counterexample): the address the listener binds is
fmt.Sprintf(":%d", port), not "localhost:<port>": for the concrete
allocation outcome 848 the server binds ":50000", which differs from
"localhost:50000", and ":<port>" in Go means all interfaces, not loopback
only. -/
theorem start_addr_not_localhost :
    (NewCallbackServer (Except.ok 848)).toOption.map startBindAddr = some ":50000" ∧
    (":50000" : String) ≠ "localhost:50000" := by
  constructor <;> decide

/-- Claim C4 (amended): Start binds its HTTP listener on address
":<port>" (all interfaces), where <port> is the session's allocated port
(minPort + the random draw), and the mux exposes the single pattern
"/callback". -/
theorem start_addr_spec (randInt : Except String Nat) (n : Nat) (cs : CallbackServer)
    (hok : randInt = Except.ok n)
    (hcs : NewCallbackServer randInt = Except.ok cs) :
    startBindAddr cs = ":" ++ toString cs.port ∧
    cs.port = minPort + n ∧
    muxPatterns = ["/callback"] := by
  subst hok
  simp [NewCallbackServer, getRandomPort] at hcs
  subst hcs
  exact ⟨rfl, rfl, rfl⟩

/-- Witness for C4's amended theorem at the draw 848. -/
theorem start_addr_spec_witness :
    startBindAddr
      { port := 50000, serverAddr := ":50000", codeChan := none, errChan := none,
        onceDone := false, shutdownCount := 0 } = ":" ++ toString 50000 := by
  have h := start_addr_spec (Except.ok 848) 848
    { port := 50000, serverAddr := ":50000", codeChan := none, errChan := none,
      onceDone := false, shutdownCount := 0 } rfl rfl
  exact h.1

/-- Claim C5: on a request to /callback with the session's one-slot
channels still empty, a present and non-empty code query parameter is
delivered into the code channel and answered with HTTP 200 and the HTML
confirmation page; otherwise the missing-code failure is delivered into
the error channel and answered with HTTP 400. -/
theorem handleCallback_spec (cs : CallbackServer) (query : List (String × String))
    (hcode : cs.codeChan = none) (herr : cs.errChan = none) :
    (queryGet query "code" ≠ "" →
      handleCallback cs query =
        HandlerOutcome.responded { cs with codeChan := some (queryGet query "code") }
          { status := 200, contentType := "text/html; charset=utf-8",
            body := successPage }) ∧
    (queryGet query "code" = "" →
      handleCallback cs query =
        HandlerOutcome.responded { cs with errChan := some "no authorization code received" }
          { status := 400, contentType := "text/plain; charset=utf-8",
            body := "Authorization failed: no code received\n" }) := by
  constructor
  · intro hne
    simp [handleCallback, hne, chanSend, hcode]
  · intro heq
    simp [handleCallback, heq, chanSend, herr]

/-- Witness for C5: a fresh server answering the request with code "xyz"
responds 200 and fills the code slot; the same server answering a
code-less request responds 400. -/
theorem handleCallback_spec_witness :
    handleCallback
      { port := 50000, serverAddr := ":50000", codeChan := none, errChan := none,
        onceDone := false, shutdownCount := 0 }
      [("code", "xyz")] =
      HandlerOutcome.responded
        { port := 50000, serverAddr := ":50000", codeChan := some "xyz", errChan := none,
          onceDone := false, shutdownCount := 0 }
        { status := 200, contentType := "text/html; charset=utf-8", body := successPage } ∧
    handleCallback
      { port := 50000, serverAddr := ":50000", codeChan := none, errChan := none,
        onceDone := false, shutdownCount := 0 }
      [] =
      HandlerOutcome.responded
        { port := 50000, serverAddr := ":50000", codeChan := none,
          errChan := some "no authorization code received",
          onceDone := false, shutdownCount := 0 }
        { status := 400, contentType := "text/plain; charset=utf-8",
          body := "Authorization failed: no code received\n" } := by
  constructor
  · exact (handleCallback_spec _ [("code", "xyz")] rfl rfl).1 (by decide)
  · exact (handleCallback_spec _ [] rfl rfl).2 rfl

/-- Claim C6: whenever the random source succeeds (its value n satisfying
rand.Int's contract n < portRange), getRandomPort succeeds with
minPort + n, which lies in [49152, 65535]; it fails exactly by propagating
a random-source failure; and the map from random draws to ports is a
bijection onto [49152, 65535], so a uniform draw yields a uniform port.
The function consults nothing but the random outcome - in particular it
never checks whether the port is free. -/
theorem getRandomPort_spec :
    (∀ n : Nat, n < portRange →
      getRandomPort (Except.ok n) = Except.ok (minPort + n) ∧
      minPort ≤ minPort + n ∧ minPort + n ≤ maxPort) ∧
    (∀ e : String, getRandomPort (Except.error e) = Except.error e) ∧
    (∀ n m : Nat, minPort + n = minPort + m → n = m) ∧
    (∀ p : Nat, minPort ≤ p → p ≤ maxPort →
      p - minPort < portRange ∧ getRandomPort (Except.ok (p - minPort)) = Except.ok p) := by
  refine ⟨?_, ?_, ?_, ?_⟩
  · intro n hn
    refine ⟨rfl, Nat.le_add_right _ _, ?_⟩
    have : n ≤ portRange - 1 := Nat.le_pred_of_lt hn
    simp only [minPort, maxPort, portRange] at hn ⊢
    omega
  · intro e
    rfl
  · intro n m h
    exact Nat.add_left_cancel h
  · intro p hlo hhi
    have hp : minPort + (p - minPort) = p := by
      simp only [minPort] at hlo ⊢
      omega
    constructor
    · simp only [minPort, maxPort, portRange] at hlo hhi ⊢
      omega
    · simp only [getRandomPort, hp]

/-- Witness for C6: the draw 0 maps to port 49152 inside the range, a
random-source failure propagates, and port 65535 is reachable. -/
theorem getRandomPort_spec_witness :
    getRandomPort (Except.ok 0) = Except.ok (minPort + 0) ∧
    getRandomPort (Except.error "entropy unavailable") =
      Except.error "entropy unavailable" ∧
    getRandomPort (Except.ok (65535 - minPort)) = Except.ok 65535 := by
  refine ⟨(getRandomPort_spec.1 0 (by decide)).1, getRandomPort_spec.2.1 _, ?_⟩
  exact (getRandomPort_spec.2.2.2 65535 (by decide) (by decide)).2

/-- Claim C9: when Serve returns an error other than http.ErrServerClosed
while the session is still fresh (both slots empty), the goroutine
delivers that error into the error channel; the error event is then the
one WaitForCode resolves (the timeout event is no longer valid), and
WaitForCode returns ("", that error). -/
theorem serve_error_delivered (cs : CallbackServer) (e : String)
    (_hcode : cs.codeChan = none) (herr : cs.errChan = none)
    (hne : e ≠ ErrServerClosed) :
    serveGoroutine cs e = ServeOutcome.done { cs with errChan := some e } ∧
    eventValid { cs with errChan := some e } (WaitEvent.errReady e) = true ∧
    eventValid { cs with errChan := some e } WaitEvent.timeout = false ∧
    (WaitForCode { cs with errChan := some e } (WaitEvent.errReady e)).2 = ("", some e) := by
  refine ⟨?_, ?_, ?_, ?_⟩
  · simp [serveGoroutine, hne, chanSend, herr]
  · simp [eventValid]
  · simp [eventValid]
  · simp [WaitForCode]

/-- Witness for C9: a fresh server whose Serve fails with a bind-reset
error hands that error to WaitForCode. -/
theorem serve_error_delivered_witness :
    serveGoroutine
      { port := 50000, serverAddr := ":50000", codeChan := none, errChan := none,
        onceDone := false, shutdownCount := 0 } "accept tcp: use of closed connection" =
      ServeOutcome.done
        { port := 50000, serverAddr := ":50000", codeChan := none,
          errChan := some "accept tcp: use of closed connection",
          onceDone := false, shutdownCount := 0 } ∧
    (WaitForCode
      { port := 50000, serverAddr := ":50000", codeChan := none,
        errChan := some "accept tcp: use of closed connection",
        onceDone := false, shutdownCount := 0 }
      (WaitEvent.errReady "accept tcp: use of closed connection")).2 =
      ("", some "accept tcp: use of closed connection") := by
  have h := serve_error_delivered
    { port := 50000, serverAddr := ":50000", codeChan := none, errChan := none,
      onceDone := false, shutdownCount := 0 }
    "accept tcp: use of closed connection" rfl rfl (by decide)
  exact ⟨h.1, h.2.2.2⟩

/-- A string with prefix "http://" is nonempty. -/
theorem nonempty_of_http (s : String) (h : goHasPref s "http://" = true) : s ≠ "" := by
  intro heq
  rw [heq] at h
  exact absurd h (by decide)

/-- A string with prefix "https://" is nonempty. -/
theorem nonempty_of_https (s : String) (h : goHasPref s "https://" = true) : s ≠ "" := by
  intro heq
  rw [heq] at h
  exact absurd h (by decide)

/-- Claim C7: for a user-supplied domain string, after trimming an empty
domain fails the flow; a trimmed domain starting with neither "http://"
nor "https://" has "https://" prepended; a trimmed domain already carrying
either scheme is kept unchanged. -/
theorem normalizeDomain_spec (raw : String) :
    (goTrim raw = "" → normalizeDomain raw = Except.error "domain cannot be empty") ∧
    (goTrim raw ≠ "" → goHasPref (goTrim raw) "http://" = false →
      goHasPref (goTrim raw) "https://" = false →
      normalizeDomain raw = Except.ok ("https://" ++ goTrim raw)) ∧
    (goHasPref (goTrim raw) "http://" = true ∨ goHasPref (goTrim raw) "https://" = true →
      normalizeDomain raw = Except.ok (goTrim raw)) := by
  refine ⟨?_, ?_, ?_⟩
  · intro h
    simp [normalizeDomain, h]
  · intro hne h1 h2
    simp [normalizeDomain, hne, h1, h2]
  · intro h
    have hne : goTrim raw ≠ "" := by
      rcases h with h | h
      · exact nonempty_of_http _ h
      · exact nonempty_of_https _ h
    rcases h with h | h <;> simp [normalizeDomain, hne, h]

/-- Witness for C7: whitespace-only input fails; a bare domain gains
"https://"; inputs already carrying "https://" or "http://" are kept. -/
theorem normalizeDomain_spec_witness :
    normalizeDomain "  \n" = Except.error "domain cannot be empty" ∧
    normalizeDomain " mastodon.social\n" = Except.ok "https://mastodon.social" ∧
    normalizeDomain "https://mastodon.social" = Except.ok "https://mastodon.social" ∧
    normalizeDomain "http://mastodon.social" = Except.ok "http://mastodon.social" := by
  refine ⟨(normalizeDomain_spec "  \n").1 (by decide),
    ?_, ?_, ?_⟩
  · have h := (normalizeDomain_spec " mastodon.social\n").2.1 (by decide) (by decide) (by decide)
    exact h
  · have h := (normalizeDomain_spec "https://mastodon.social").2.2 (Or.inr (by decide))
    exact h
  · have h := (normalizeDomain_spec "http://mastodon.social").2.2 (Or.inl (by decide))
    exact h

/-- Claim C8: a failure of OpenBrowser is non-fatal: when the flow reaches
the browser step, a browser-launch error is only reported (the warning is
emitted), the flow still reaches WaitForCode, and the overall error and
store writes are exactly those of an untroubled launch; whereas an error
in any other step (register, start, wait, exchange) aborts the run with
that step's error and, for pre-wait steps, without reaching WaitForCode.
The unsupported-platform case of OpenBrowser is one such launch error. -/
theorem browser_failure_nonfatal (inp : AuthInputs) (d : String) (cs : CallbackServer)
    (app : String × String)
    (hgate : ¬(inp.existingToken ≠ "" ∧
        goTrim (goToLower inp.promptResponse) ≠ "y" ∧
        goTrim (goToLower inp.promptResponse) ≠ "yes"))
    (hdom : normalizeDomain inp.rawDomain = Except.ok d)
    (hsrv : NewCallbackServer inp.randInt = Except.ok cs)
    (hreg : inp.registerApp = Except.ok app)
    (hs1 : inp.setDomainErr = none) (hs2 : inp.setClientIdErr = none)
    (hs3 : inp.setClientSecretErr = none) :
    (∀ e : String,
      (runAuth { inp with startErr := none, openBrowserErr := some e }).browserWarning = some e ∧
      (runAuth { inp with startErr := none, openBrowserErr := some e }).reachedWait = true ∧
      (runAuth { inp with startErr := none, openBrowserErr := some e }).err =
        (runAuth { inp with startErr := none, openBrowserErr := none }).err ∧
      (runAuth { inp with startErr := none, openBrowserErr := some e }).writes =
        (runAuth { inp with startErr := none, openBrowserErr := none }).writes) ∧
    (∀ e : String,
      (runAuth { inp with startErr := some e }).err =
        some ("failed to start callback server: " ++ e) ∧
      (runAuth { inp with startErr := some e }).reachedWait = false) ∧
    (∀ e : String,
      (runAuth { inp with registerApp := Except.error e }).err =
        some ("failed to register app: " ++ e) ∧
      (runAuth { inp with registerApp := Except.error e }).reachedWait = false) ∧
    (∀ e : String, inp.startErr = none → inp.waitForCodeResult = Except.error e →
      (runAuth inp).err = some ("failed to get authorization code: " ++ e)) ∧
    OpenBrowser "plan9" none = some "unsupported platform" := by
  refine ⟨?_, ?_, ?_, ?_, by decide⟩
  · intro e
    rcases hw : inp.waitForCodeResult with we | wc
    · simp [runAuth, hgate, hdom, hsrv, hreg, hs1, hs2, hs3, hw]
    · rcases hg : inp.getAccessToken with ge | tok
      · simp [runAuth, hgate, hdom, hsrv, hreg, hs1, hs2, hs3, hw, hg]
      · rcases ht : inp.setTokenErr with _ | te <;>
          simp [runAuth, hgate, hdom, hsrv, hreg, hs1, hs2, hs3, hw, hg, ht]
  · intro e
    simp [runAuth, hgate, hdom, hsrv, hreg, hs1, hs2, hs3]
  · intro e
    simp [runAuth, hgate, hdom, hsrv, hs1, hs2, hs3]
  · intro e hst hw
    simp [runAuth, hgate, hdom, hsrv, hreg, hs1, hs2, hs3, hst, hw]

/-- Witness for C8: a concrete run in which xdg-open fails still reaches
WaitForCode, warns, and succeeds exactly like the run whose launch works. -/
theorem browser_failure_nonfatal_witness :
    (runAuth
      { existingToken := "", promptResponse := "", rawDomain := "mastodon.social",
        randInt := Except.ok 848, registerApp := Except.ok ("cid", "csec"),
        setDomainErr := none, setClientIdErr := none, setClientSecretErr := none,
        startErr := none, openBrowserErr := some "exec: xdg-open: not found",
        waitForCodeResult := Except.ok "code123", getAccessToken := Except.ok "tok",
        setTokenErr := none }).browserWarning = some "exec: xdg-open: not found" ∧
    (runAuth
      { existingToken := "", promptResponse := "", rawDomain := "mastodon.social",
        randInt := Except.ok 848, registerApp := Except.ok ("cid", "csec"),
        setDomainErr := none, setClientIdErr := none, setClientSecretErr := none,
        startErr := none, openBrowserErr := some "exec: xdg-open: not found",
        waitForCodeResult := Except.ok "code123", getAccessToken := Except.ok "tok",
        setTokenErr := none }).reachedWait = true := by
  have h := (browser_failure_nonfatal
    { existingToken := "", promptResponse := "", rawDomain := "mastodon.social",
      randInt := Except.ok 848, registerApp := Except.ok ("cid", "csec"),
      setDomainErr := none, setClientIdErr := none, setClientSecretErr := none,
      startErr := none, openBrowserErr := none,
      waitForCodeResult := Except.ok "code123", getAccessToken := Except.ok "tok",
      setTokenErr := none }
    "https://mastodon.social"
    { port := 50000, serverAddr := ":50000", codeChan := none, errChan := none,
      onceDone := false, shutdownCount := 0 }
    ("cid", "csec")
    (by simp) rfl rfl rfl rfl rfl rfl).1 "exec: xdg-open: not found"
  exact ⟨h.1, h.2.1⟩

/-- Claim C10: with an existing access token and a re-authentication
answer that trims and lowercases to neither "y" nor "yes", runAuth
returns success immediately, performs no store write (so domain,
client_id, client_secret and access_token are all unchanged), emits no
browser warning, and never reaches WaitForCode. -/
theorem reauth_declined_no_writes (inp : AuthInputs)
    (htok : inp.existingToken ≠ "")
    (h1 : goTrim (goToLower inp.promptResponse) ≠ "y")
    (h2 : goTrim (goToLower inp.promptResponse) ≠ "yes") :
    runAuth inp =
      { err := none, writes := [], browserWarning := none, reachedWait := false } ∧
    ∀ st : String → String, applyWrites st (runAuth inp).writes = st := by
  have hrun : runAuth inp =
      { err := none, writes := [], browserWarning := none, reachedWait := false } := by
    simp only [runAuth]
    rw [if_pos ⟨htok, h1, h2⟩]
  exact ⟨hrun, fun st => by simp [hrun, applyWrites]⟩

/-- Witness for C10: an authenticated user answering " No" cancels with
success and an empty write list. -/
theorem reauth_declined_no_writes_witness :
    runAuth
      { existingToken := "tok", promptResponse := " No\n", rawDomain := "mastodon.social",
        randInt := Except.ok 848, registerApp := Except.ok ("cid", "csec"),
        setDomainErr := none, setClientIdErr := none, setClientSecretErr := none,
        startErr := none, openBrowserErr := none,
        waitForCodeResult := Except.ok "code123", getAccessToken := Except.ok "tok2",
        setTokenErr := none } =
      { err := none, writes := [], browserWarning := none, reachedWait := false } :=
  (reauth_declined_no_writes _ (by decide) (by decide) (by decide)).1

end Tusk
